import Mathlib

/-
Verification of the ArgoCD multi-instance client service
(plugins/backend/backstage-plugin-argo-cd-backend/src/service).

The repository ships the test suite argocd.test.ts for the ArgoService
class; the service implementation itself is not among the provided
sources.  The definitions below are therefore modelled from the
specification of the service, with every behaviour that the test suite
pins (exact result shapes, exact error messages) taken from the test
suite, which is authoritative source code of the repository.

Modelling conventions:
- JSON response bodies are a small inductive `Json` value.
- An HTTP exchange is abstracted as a `FetchResult`: either a response
  with a status code and an optional decoded JSON body (`none` models an
  empty or undecodable body), or a transport failure (the fetch call
  throwing).
- A rejected promise is `Except.error msg`; a resolved promise is
  `Except.ok v`.
- Operations take the responses of the HTTP calls they would perform as
  explicit arguments (the "world"), so each operation is a pure function
  of its inputs and of what the network returned.
-/

/-- Minimal JSON value model for the response bodies the service inspects. -/
inductive Json where
  | null : Json
  | str : String → Json
  | num : Int → Json
  | jbool : Bool → Json
  | arr : List Json → Json
  | obj : List (String × Json) → Json

/-- Look a key up in an association list of JSON object fields. -/
def lookupField (k : String) : List (String × Json) → Option Json
  | [] => none
  | (k2, v) :: rest => if k2 = k then some v else lookupField k rest

/-- Read a field of a JSON object; `none` on non-objects and missing keys. -/
def Json.getField : Json → String → Option Json
  | .obj fs, k => lookupField k fs
  | _, _ => none

/-- Replace the value of a key in an object field list, or append it. -/
def setPairs (k : String) (v : Json) : List (String × Json) → List (String × Json)
  | [] => [(k, v)]
  | (k2, v2) :: rest => if k2 = k then (k, v) :: rest else (k2, v2) :: setPairs k v rest

/-- Set a field of a JSON object (identity on non-objects, as the source
mutates properties of decoded objects only). -/
def Json.setField : Json → String → Json → Json
  | .obj fs, k, v => .obj (setPairs k v fs)
  | j, _, _ => j

/-- True when the JSON value is an object carrying the key. -/
def hasField (b : Json) (k : String) : Bool :=
  (b.getField k).isSome

/-- An HTTP response: status code and the optional decoded JSON body
(`none` for an empty or undecodable body). -/
structure HttpResponse where
  status : Nat
  body : Option Json

/-- Outcome of one fetch call: a response, or the call throwing with a
transport error. -/
inductive FetchResult where
  | ok : HttpResponse → FetchResult
  | transportError : String → FetchResult

/-- Success range check for an HTTP status code. -/
def is2xx (status : Nat) : Bool :=
  200 ≤ status && status ≤ 299

/-- A configured ArgoCD instance from the registry. -/
structure ArgoInstance where
  name : String
  url : String

/-- An app query: a name or a label selector (the source treats an empty
string the same as an absent value, as empty strings are falsy). -/
structure AppQuery where
  name : Option String
  selector : Option String

/-- True when an optional query component is supplied and non-empty. -/
def present : Option String → Bool
  | none => false
  | some s => s ≠ ""

/-- A query is valid when a name or a selector is supplied. -/
def queryValid (q : AppQuery) : Bool :=
  present q.name || present q.selector

/-- Per (instance, app) sync outcome. -/
structure SyncResult where
  status : String
  message : String

/-- Modelled from the spec: `getToken` of the Session Manager (the
implementation argocd.service.ts is not among the provided sources).
POSTs the credentials to the session endpoint; on success returns the
`token` field of the body; otherwise rejects with an error carrying the
instance URL.  The exact message is pinned by the repository test suite
(argocd.test.ts lines 596-611): `Getting unauthorized for Argo CD
instance {url}`. -/
def getArgoToken (url : String) (r : FetchResult) : Except String String :=
  match r with
  | .transportError e => .error e
  | .ok resp =>
    if is2xx resp.status then
      match resp.body with
      | some b =>
        match b.getField "token" with
        | some (.str t) => .ok t
        | _ => .error ("Getting unauthorized for Argo CD instance " ++ url)
      | none => .error ("Getting unauthorized for Argo CD instance " ++ url)
    else .error ("Getting unauthorized for Argo CD instance " ++ url)

/-- Decorate one item of a bulk query result with the originating
instance: sets `metadata.instance` to `{name: instanceName}` (items
without a metadata object are left unchanged). -/
def decorateItem (instanceName : String) (item : Json) : Json :=
  match item.getField "metadata" with
  | some m =>
    item.setField "metadata" (m.setField "instance" (.obj [("name", .str instanceName)]))
  | none => item

/-- Decoration step of `getArgoAppData`: a body with an `items` array has
every item decorated individually; otherwise, for a name query, the body
gains a top-level `instance` field holding the instance name. -/
def decorateBody (instanceName : String) (q : AppQuery) (body : Json) : Json :=
  match body.getField "items" with
  | some (.arr xs) => body.setField "items" (.arr (xs.map (decorateItem instanceName)))
  | _ => if present q.name then body.setField "instance" (.str instanceName) else body

/-- Modelled from the spec: `getArgoAppData` of the service (the
implementation argocd.service.ts is not among the provided sources).
GETs the applications endpoint filtered by the query; rejects when the
fetch throws, when the status is not 2xx, or when the body does not
decode; otherwise resolves to the decoded body decorated with the
originating instance name as described by the ArgoAppData data model. -/
def getArgoAppData (instanceName : String) (q : AppQuery) (r : FetchResult) : Except String Json :=
  match r with
  | .transportError e => .error e
  | .ok resp =>
    if is2xx resp.status then
      match resp.body with
      | some body => .ok (decorateBody instanceName q body)
      | none => .error "Invalid JSON response body"
    else .error ("Request failed with status " ++ toString resp.status)

/-- Name of one application item: its `metadata.name` string field. -/
def itemName (item : Json) : Option String :=
  match item.getField "metadata" with
  | some m =>
    match m.getField "name" with
    | some (.str n) => some n
    | _ => none
  | none => none

/-- Application names found in one app-data body: the names of the
`items` entries for a bulk result, else the name of the single app. -/
def extractAppNames (body : Json) : List String :=
  match body.getField "items" with
  | some (.arr xs) => xs.filterMap itemName
  | _ =>
    match itemName body with
    | some n => [n]
    | none => []

/-- The two HTTP exchanges the locator performs against one instance:
the session call and the application query. -/
structure LocWorld where
  session : FetchResult
  query : FetchResult

/-- Per-instance outcome of the locator: an authentication failure (which
aborts the aggregate), a failed application query (the app is treated as
not on this instance), or the list of app names located there. -/
inductive LocateOutcome where
  | authFailed : String → LocateOutcome
  | queryFailed : String → LocateOutcome
  | located : List String → LocateOutcome

/-- Modelled from the spec: the per-instance step of `findArgoApp`
(the implementation argocd.service.ts is not among the provided
sources): acquire a session token, then query the application list. -/
def locateOnInstance (q : AppQuery) (inst : ArgoInstance) (w : LocWorld) : LocateOutcome :=
  match getArgoToken inst.url w.session with
  | .error m => .authFailed m
  | .ok _ =>
    match getArgoAppData inst.name q w.query with
    | .error m => .queryFailed m
    | .ok data => .located (extractAppNames data)

/-- One entry of the locator result: instance name, instance URL and the
app names found on it. -/
structure FoundApp where
  name : String
  url : String
  appName : List String

/-- First authentication failure among the per-instance outcomes. -/
def firstAuthFailure : List LocateOutcome → Option String
  | [] => none
  | .authFailed m :: _ => some m
  | _ :: rest => firstAuthFailure rest

/-- True when every per-instance outcome is a failed application query. -/
def allQueriesFailed (outs : List LocateOutcome) : Bool :=
  outs.all (fun o => match o with | .queryFailed _ => true | _ => false)

/-- Keep the instances on which apps were located, preserving registry
order; instances with zero matches are excluded. -/
def collectFound : List (ArgoInstance × LocateOutcome) → List FoundApp
  | [] => []
  | (inst, .located apps) :: rest =>
    if apps.isEmpty then collectFound rest
    else ⟨inst.name, inst.url, apps⟩ :: collectFound rest
  | _ :: rest => collectFound rest

/-- Modelled from the spec: `findArgoApp` of the App Locator (the
implementation argocd.service.ts is not among the provided sources).
Fails fast on an invalid query; propagates an authentication failure of
any instance; treats an instance whose application query failed as not
hosting the app, except that the call fails when every instance failed;
otherwise returns the matches in registry order. -/
def findArgoApp (q : AppQuery) (pairs : List (ArgoInstance × LocWorld)) :
    Except String (List FoundApp) :=
  if !(queryValid q) then .error "name or selector is required"
  else
    let outs := pairs.map (fun p => (p.1, locateOnInstance q p.1 p.2))
    match firstAuthFailure (outs.map Prod.snd) with
    | some m => .error m
    | none =>
      if !pairs.isEmpty && allQueriesFailed (outs.map Prod.snd) then
        .error "Cannot get argo app data from any instance"
      else .ok (collectFound outs)

/-- Modelled from the spec: `syncArgoApp` of the Resource Mutator (the
implementation argocd.service.ts is not among the provided sources).
POSTs the sync endpoint and always resolves: Success with the re-synced
message on a 2xx status, Failure with the failed-to-resync message on
any other status; a permission denial is swallowed into the Failure
status rather than rejected. -/
def syncArgoApp (instanceName appName : String) (resp : HttpResponse) : SyncResult :=
  if is2xx resp.status then
    ⟨"Success", "Re-synced " ++ appName ++ " on " ++ instanceName⟩
  else
    ⟨"Failure", "Failed to resync " ++ appName ++ " on " ++ instanceName⟩

/-- The permission-denied pair of a delete response body: the `message`
string when both an `error` and a `message` field are present. -/
def permissionPair (body : Option Json) : Option String :=
  match body with
  | none => none
  | some b =>
    match b.getField "error", b.getField "message" with
    | some _, some (.str m) => some m
    | _, _ => none

/-- Modelled from the spec: `deleteProject` of the Resource Mutator (the
implementation argocd.service.ts is not among the provided sources).
DELETE call with a three-way outcome: true on a 2xx status; a rejection
carrying the body message verbatim on a permission-denied `error` and
`message` pair; false on any other failure status. -/
def deleteProject (r : FetchResult) : Except String Bool :=
  match r with
  | .transportError e => .error e
  | .ok resp =>
    if is2xx resp.status then .ok true
    else
      match permissionPair resp.body with
      | some m => .error m
      | none => .ok false

/-- Modelled from the spec: `deleteApp` of the Resource Mutator (the
implementation argocd.service.ts is not among the provided sources).
Identical three-way contract to deleteProject, against the applications
endpoint. -/
def deleteApp (r : FetchResult) : Except String Bool :=
  match r with
  | .transportError e => .error e
  | .ok resp =>
    if is2xx resp.status then .ok true
    else
      match permissionPair resp.body with
      | some m => .error m
      | none => .ok false

/-- Modelled from the spec: `createArgoProject` of the Resource Mutator
(the implementation argocd.service.ts is not among the provided
sources).  POSTs the project manifest and resolves to the raw decoded
response body unchanged, whether it is a success payload or an
application-level error shape; rejects only when the fetch throws or the
body does not decode. -/
def createArgoProject (r : FetchResult) : Except String Json :=
  match r with
  | .transportError e => .error e
  | .ok resp =>
    match resp.body with
    | some b => .ok b
    | none => .error "Invalid JSON response body"

/-- Modelled from the spec: `createArgoApplication` of the Resource
Mutator (the implementation argocd.service.ts is not among the provided
sources).  Same pass-through contract as createArgoProject, against the
applications endpoint. -/
def createArgoApplication (r : FetchResult) : Except String Json :=
  match r with
  | .transportError e => .error e
  | .ok resp =>
    match resp.body with
    | some b => .ok b
    | none => .error "Invalid JSON response body"

/-- The three HTTP exchanges of `createArgoResources`: the session call
of the named instance, the project creation and the application
creation. -/
structure CreateResourcesWorld where
  instanceUrl : String
  session : FetchResult
  projectResp : FetchResult
  appResp : FetchResult

/-- Modelled from the spec: `createArgoResources` of the Resource
Mutator (the implementation argocd.service.ts is not among the provided
sources).  Composite two-step operation: acquires a token, creates the
project, then creates the application; rejects when either creation
response body carries an `error` field or either step throws; resolves
to true only on full success of both steps. -/
def createArgoResources (w : CreateResourcesWorld) : Except String Bool :=
  match getArgoToken w.instanceUrl w.session with
  | .error e => .error e
  | .ok _ =>
    match createArgoProject w.projectResp with
    | .error e => .error e
    | .ok projBody =>
      if hasField projBody "error" then .error "Failed to create project in Argo CD"
      else
        match createArgoApplication w.appResp with
        | .error e => .error e
        | .ok appBody =>
          if hasField appBody "error" then .error "Failed to create application in Argo CD"
          else .ok true

/-- The HTTP exchanges `resyncAppOnAllArgos` performs against one
instance: the two locator calls, the fresh session call of the sync
phase, and one sync response per application name. -/
structure ResyncWorld where
  locSession : FetchResult
  locQuery : FetchResult
  syncSession : FetchResult
  syncResp : String → HttpResponse

/-- The locator view of a resync world. -/
def ResyncWorld.toLoc (w : ResyncWorld) : LocWorld :=
  ⟨w.locSession, w.locQuery⟩

/-- Sync phase of the aggregate operation on one matched instance:
acquire a fresh token, then sync every located app, preserving the app
order. -/
def syncInstanceApps (inst : ArgoInstance) (w : ResyncWorld) (apps : List String) :
    Except String (List SyncResult) :=
  match getArgoToken inst.url w.syncSession with
  | .error e => .error e
  | .ok _ => .ok (apps.map (fun a => syncArgoApp inst.name a (w.syncResp a)))

/-- Modelled from the spec: `resyncAppOnAllArgos` of the Result
Aggregator (the implementation argocd.service.ts is not among the
provided sources).  Delegates to the locator (propagating its
rejections), then syncs every located app on every matched instance,
collecting the per-app SyncResult values with the outer order following
the instance order and the inner order the per-instance app order. -/
def resyncAppOnAllArgos (q : AppQuery) (pairs : List (ArgoInstance × ResyncWorld)) :
    Except String (List (List SyncResult)) :=
  match findArgoApp q (pairs.map (fun p => (p.1, p.2.toLoc))) with
  | .error e => .error e
  | .ok found =>
    found.mapM (fun f =>
      match pairs.find? (fun p => p.1.name == f.name) with
      | none => Except.error "Instance not found in configuration"
      | some p => syncInstanceApps p.1 p.2 f.appName)

/-- True when the outcome is a rejection. -/
def isRejection {α : Type} : Except String α → Bool
  | .error _ => true
  | .ok _ => false

/-- True when the session exchange yields a token. -/
def tokenOk (url : String) (r : FetchResult) : Bool :=
  match getArgoToken url r with
  | .ok _ => true
  | .error _ => false

/-- True when a creation exchange yields a decoded body without an
`error` field. -/
def createBodyOk (r : FetchResult) : Bool :=
  match r with
  | .transportError _ => false
  | .ok resp =>
    match resp.body with
    | some b => !(hasField b "error")
    | none => false

/-- Claim C10: for a single-instance app-data query whose underlying HTTP
request itself fails (the fetch throws a transport error), getArgoAppData
rejects with that error rather than resolving to an empty or not-found
result. -/
theorem getArgoAppData_transport_rejects (iname : String) (q : AppQuery) (e : String) :
    getArgoAppData iname q (.transportError e) = .error e := rfl

/-- Claim C2: syncArgoApp always resolves and never rejects (the model is
a total function into SyncResult): a 2xx response yields Success with the
re-synced message, any non-2xx response, 403 permission denials included,
yields Failure with the failed-to-resync message, with the request app
name and the instance name interpolated. -/
theorem syncArgoApp_total (iname aname : String) (resp : HttpResponse) :
    (is2xx resp.status = true →
      syncArgoApp iname aname resp =
        ⟨"Success", "Re-synced " ++ aname ++ " on " ++ iname⟩) ∧
    (is2xx resp.status = false →
      syncArgoApp iname aname resp =
        ⟨"Failure", "Failed to resync " ++ aname ++ " on " ++ iname⟩) := by
  constructor <;> intro h <;> simp [syncArgoApp, h]

/-- Witness for claim C2, at the concrete inputs of the sync tests: a 200
response yields Success and a 403 response yields Failure. -/
theorem syncArgoApp_total_witness :
    syncArgoApp "testApp" "testApp" ⟨200, none⟩ =
      ⟨"Success", "Re-synced testApp on testApp"⟩ ∧
    syncArgoApp "testApp" "testApp" ⟨403, none⟩ =
      ⟨"Failure", "Failed to resync testApp on testApp"⟩ := by
  exact ⟨(syncArgoApp_total "testApp" "testApp" ⟨200, none⟩).1 (by decide),
         (syncArgoApp_total "testApp" "testApp" ⟨403, none⟩).2 (by decide)⟩

/-- Claim C5: createArgoProject and createArgoApplication resolve to the
raw decoded response body unchanged, whatever shape it has (success
payload, flat error object, or nested permission-denial object), and
reject only on transport failure. -/
theorem create_passthrough (status : Nat) (body : Json) (e : String) :
    createArgoProject (.ok ⟨status, some body⟩) = .ok body ∧
    createArgoApplication (.ok ⟨status, some body⟩) = .ok body ∧
    createArgoProject (.transportError e) = .error e ∧
    createArgoApplication (.transportError e) = .error e :=
  ⟨rfl, rfl, rfl, rfl⟩

/-- Claim C1: both delete operations have the exact three-way outcome:
2xx resolves to true; a status of at least 500 with no permission-denied
error body resolves to false; a non-2xx response whose body carries an
error and message pair rejects with exactly that message string. -/
theorem delete_three_way (resp : HttpResponse) :
    (is2xx resp.status = true →
      deleteProject (.ok resp) = .ok true ∧ deleteApp (.ok resp) = .ok true) ∧
    (500 ≤ resp.status → permissionPair resp.body = none →
      deleteProject (.ok resp) = .ok false ∧ deleteApp (.ok resp) = .ok false) ∧
    (∀ m, is2xx resp.status = false → permissionPair resp.body = some m →
      deleteProject (.ok resp) = .error m ∧ deleteApp (.ok resp) = .error m) := by
  refine ⟨fun h => ?_, fun h hp => ?_, fun m h hp => ?_⟩
  · simp [deleteProject, deleteApp, h]
  · have h2 : is2xx resp.status = false := by
      simp only [is2xx, Bool.and_eq_false_iff, decide_eq_false_iff_not, not_le]
      omega
    simp [deleteProject, deleteApp, h2, hp]
  · simp [deleteProject, deleteApp, h, hp]

/-- Witness for claim C1, at the concrete responses of the delete tests:
an empty 200 response, an empty 500 response, and a 403 response with the
permission-denied error and message pair. -/
theorem delete_three_way_witness :
    deleteProject (.ok ⟨200, none⟩) = .ok true ∧
    deleteApp (.ok ⟨500, none⟩) = .ok false ∧
    deleteProject (.ok ⟨403, some (.obj
      [("error", .str "permission denied: projects, delete, backstagetestmanual, sub: testuser18471, iat: 2022-04-13T12:28:34Z"),
       ("message", .str "permission denied: projects, delete, backstagetestmanual, sub: testuser18471, iat: 2022-04-13T12:28:34Z")])⟩) =
      .error "permission denied: projects, delete, backstagetestmanual, sub: testuser18471, iat: 2022-04-13T12:28:34Z" := by
  refine ⟨((delete_three_way ⟨200, none⟩).1 (by decide)).1,
          ((delete_three_way ⟨500, none⟩).2.1 (by decide) rfl).2,
          ((delete_three_way ⟨403, some (.obj
            [("error", .str "permission denied: projects, delete, backstagetestmanual, sub: testuser18471, iat: 2022-04-13T12:28:34Z"),
             ("message", .str "permission denied: projects, delete, backstagetestmanual, sub: testuser18471, iat: 2022-04-13T12:28:34Z")])⟩).2.2
            "permission denied: projects, delete, backstagetestmanual, sub: testuser18471, iat: 2022-04-13T12:28:34Z"
            (by decide) rfl).1⟩

/-- Claim C7: a query supplying neither a name nor a selector (an empty
string counting as absent) makes findArgoApp and resyncAppOnAllArgos
reject immediately with the configuration error, independently of every
network exchange (so no performed I/O can influence the outcome). -/
theorem resync_invalid_query_rejects (q : AppQuery)
    (pairs : List (ArgoInstance × ResyncWorld))
    (locPairs : List (ArgoInstance × LocWorld))
    (h : queryValid q = false) :
    resyncAppOnAllArgos q pairs = .error "name or selector is required" ∧
    findArgoApp q locPairs = .error "name or selector is required" := by
  have hf : ∀ ps : List (ArgoInstance × LocWorld),
      findArgoApp q ps = .error "name or selector is required" := by
    intro ps
    simp [findArgoApp, h]
  exact ⟨by simp [resyncAppOnAllArgos, hf], hf locPairs⟩

/-- Witness for claim C7: the empty-string selector of the failing sync
test is invalid, and the aggregate operation rejects on it even with a
configured instance whose network calls would all succeed. -/
theorem resync_invalid_query_rejects_witness :
    queryValid ⟨none, some ""⟩ = false ∧
    resyncAppOnAllArgos ⟨none, some ""⟩
      [(⟨"argoInstance1", "https://argoInstance1.com"⟩,
        ⟨.ok ⟨200, some (.obj [("token", .str "testToken")])⟩,
         .ok ⟨200, some (.obj [("items", .arr [])])⟩,
         .ok ⟨200, some (.obj [("token", .str "testToken")])⟩,
         fun _ => ⟨200, none⟩⟩)] =
      .error "name or selector is required" := by
  refine ⟨by decide, ?_⟩
  exact (resync_invalid_query_rejects ⟨none, some ""⟩ _ [] (by decide)).1

/-- Looking up the key just set in an object field list yields the new
value. -/
theorem lookup_setPairs_self (k : String) (v : Json) (fs : List (String × Json)) :
    lookupField k (setPairs k v fs) = some v := by
  induction fs with
  | nil => simp [setPairs, lookupField]
  | cons p rest ih =>
    obtain ⟨k2, v2⟩ := p
    by_cases h : k2 = k
    · simp [setPairs, h, lookupField]
    · simp [setPairs, h, lookupField, ih]

/-- Setting one key of an object field list leaves every other key
unchanged. -/
theorem lookup_setPairs_other (k k2 : String) (v : Json) (fs : List (String × Json))
    (h : k2 ≠ k) :
    lookupField k2 (setPairs k v fs) = lookupField k2 fs := by
  have hkk2 : ¬k = k2 := fun hh => h hh.symm
  induction fs with
  | nil => simp [setPairs, lookupField, hkk2]
  | cons p rest ih =>
    obtain ⟨k3, v3⟩ := p
    by_cases h3 : k3 = k
    · subst h3
      simp [setPairs, lookupField, hkk2]
    · simp [setPairs, h3, lookupField, ih]

/-- Reading back the field just set on a JSON object. -/
theorem getField_setField_self (fs : List (String × Json)) (k : String) (v : Json) :
    ((Json.obj fs).setField k v).getField k = some v := by
  simp [Json.setField, Json.getField, lookup_setPairs_self]

/-- Setting a field of a JSON object leaves the other fields unchanged. -/
theorem getField_setField_other (fs : List (String × Json)) (k k2 : String) (v : Json)
    (h : k2 ≠ k) :
    ((Json.obj fs).setField k v).getField k2 = (Json.obj fs).getField k2 := by
  simp [Json.setField, Json.getField, lookup_setPairs_other k k2 v fs h]

/-- Claim C9: getArgoAppData decorates the app state with the originating
instance name: on a name-based query the successful result is the body
with a top-level instance field holding the instance name and all other
fields kept; on a bulk query the successful result has every entry of the
items array decorated individually, the decoration of an item setting
instance to an object naming the originating instance inside the item
metadata. -/
theorem getArgoAppData_decorates (iname : String) (q : AppQuery) (status : Nat)
    (fs : List (String × Json)) (h2 : is2xx status = true) :
    (present q.name = true → Json.getField (.obj fs) "items" = none →
      getArgoAppData iname q (.ok ⟨status, some (.obj fs)⟩) =
        .ok ((Json.obj fs).setField "instance" (.str iname)) ∧
      ((Json.obj fs).setField "instance" (.str iname)).getField "instance" =
        some (.str iname) ∧
      (∀ k, k ≠ "instance" →
        ((Json.obj fs).setField "instance" (.str iname)).getField k =
          Json.getField (.obj fs) k)) ∧
    (∀ xs, Json.getField (.obj fs) "items" = some (.arr xs) →
      getArgoAppData iname q (.ok ⟨status, some (.obj fs)⟩) =
        .ok ((Json.obj fs).setField "items" (.arr (xs.map (decorateItem iname))))) ∧
    (∀ ifs m, Json.getField (.obj ifs) "metadata" = some m →
      (decorateItem iname (.obj ifs)).getField "metadata" =
        some (m.setField "instance" (.obj [("name", .str iname)]))) := by
  refine ⟨fun hn hitems => ⟨?_, ?_, ?_⟩, fun xs hitems => ?_, fun ifs m hm => ?_⟩
  · simp [getArgoAppData, h2, decorateBody, hitems, hn]
  · exact getField_setField_self fs "instance" (.str iname)
  · intro k hk
    exact getField_setField_other fs "instance" k (.str iname) hk
  · simp [getArgoAppData, h2, decorateBody, hitems]
  · simp [decorateItem, hm, getField_setField_self]

/-- Witness for claim C9, at the concrete responses of the app-data
tests: the name query body gains the top-level instance field and keeps
its metadata; the selector body with two items has both items decorated
inside their metadata objects. -/
theorem getArgoAppData_decorates_witness :
    getArgoAppData "argoInstance1" ⟨some "testApp", none⟩
      (.ok ⟨200, some (.obj [("metadata", .obj
        [("name", .str "testAppName"), ("namespace", .str "testNamespace")])])⟩) =
      .ok (.obj [("metadata", .obj
        [("name", .str "testAppName"), ("namespace", .str "testNamespace")]),
        ("instance", .str "argoInstance1")]) ∧
    getArgoAppData "argoInstance1" ⟨none, some "service=testApp"⟩
      (.ok ⟨200, some (.obj [("items", .arr
        [.obj [("metadata", .obj [("name", .str "testApp-prod"), ("namespace", .str "argocd")])],
         .obj [("metadata", .obj [("name", .str "testApp-staging"), ("namespace", .str "argocd")])]])])⟩) =
      .ok (.obj [("items", .arr
        [.obj [("metadata", .obj [("name", .str "testApp-prod"), ("namespace", .str "argocd"),
          ("instance", .obj [("name", .str "argoInstance1")])])],
         .obj [("metadata", .obj [("name", .str "testApp-staging"), ("namespace", .str "argocd"),
          ("instance", .obj [("name", .str "argoInstance1")])])]])]) := by
  constructor
  · exact ((getArgoAppData_decorates "argoInstance1" ⟨some "testApp", none⟩ 200
      [("metadata", .obj [("name", .str "testAppName"), ("namespace", .str "testNamespace")])]
      (by decide)).1 (by decide) rfl).1
  · exact (getArgoAppData_decorates "argoInstance1" ⟨none, some "service=testApp"⟩ 200
      [("items", .arr
        [.obj [("metadata", .obj [("name", .str "testApp-prod"), ("namespace", .str "argocd")])],
         .obj [("metadata", .obj [("name", .str "testApp-staging"), ("namespace", .str "argocd")])]])]
      (by decide)).2.1 _ rfl

/-- The two create operations share one contract: they are the same
function of the HTTP exchange. -/
theorem createApplication_eq_createProject (r : FetchResult) :
    createArgoApplication r = createArgoProject r := by
  cases r with
  | transportError e => rfl
  | ok resp =>
    obtain ⟨s, b⟩ := resp
    cases b <;> rfl


/-- The token predicate holds exactly when the session exchange yields a
token. -/
theorem tokenOk_true_iff (url : String) (r : FetchResult) :
    tokenOk url r = true ↔ ∃ t, getArgoToken url r = .ok t := by
  unfold tokenOk
  cases h : getArgoToken url r <;> simp

/-- The creation-step predicate holds exactly when the step resolves to a
body without an error field. -/
theorem createBodyOk_true_iff (r : FetchResult) :
    createBodyOk r = true ↔
      ∃ b, createArgoProject r = .ok b ∧ hasField b "error" = false := by
  cases r with
  | transportError e => simp [createBodyOk, createArgoProject]
  | ok resp =>
    obtain ⟨s, b⟩ := resp
    cases b with
    | none => simp [createBodyOk, createArgoProject]
    | some bb => simp [createBodyOk, createArgoProject]

/-- Claim C4: createArgoResources is the token-project-application
composite: it resolves to true exactly when the token is granted and both
creation steps return decoded bodies without an error field; it rejects
whenever either creation body carries an error field (in particular the
project one) and whenever the session or either creation call throws. -/
theorem createArgoResources_spec (w : CreateResourcesWorld) :
    (createArgoResources w = .ok true ↔
      tokenOk w.instanceUrl w.session = true ∧
      createBodyOk w.projectResp = true ∧ createBodyOk w.appResp = true) ∧
    (∀ pb, createArgoProject w.projectResp = .ok pb → hasField pb "error" = true →
      isRejection (createArgoResources w) = true) ∧
    (∀ ab, createArgoApplication w.appResp = .ok ab → hasField ab "error" = true →
      isRejection (createArgoResources w) = true) ∧
    (∀ e, w.session = .transportError e →
      isRejection (createArgoResources w) = true) ∧
    (∀ e, w.projectResp = .transportError e →
      isRejection (createArgoResources w) = true) ∧
    (∀ e, w.appResp = .transportError e →
      isRejection (createArgoResources w) = true) := by
  obtain ⟨url, sess, projR, appR⟩ := w
  cases hT : getArgoToken url sess with
  | error e =>
    have htok : tokenOk url sess = false := by simp [tokenOk, hT]
    have hR : createArgoResources ⟨url, sess, projR, appR⟩ = .error e := by
      simp [createArgoResources, hT]
    refine ⟨?_, ?_, ?_, ?_, ?_, ?_⟩ <;> simp [hR, htok, isRejection]
  | ok t =>
    have htok : tokenOk url sess = true := by simp [tokenOk, hT]
    have hsess : ∀ e2, sess ≠ .transportError e2 := by
      intro e2 he2
      rw [he2] at hT
      simp [getArgoToken] at hT
    cases hP : createArgoProject projR with
    | error e2 =>
      have hproj : createBodyOk projR = false := by
        rw [Bool.eq_false_iff]
        intro hcontra
        obtain ⟨b, hb, _⟩ := (createBodyOk_true_iff projR).1 hcontra
        rw [hP] at hb
        exact Except.noConfusion hb
      have hR : createArgoResources ⟨url, sess, projR, appR⟩ = .error e2 := by
        simp [createArgoResources, hT, hP]
      refine ⟨?_, ?_, ?_, ?_, ?_, ?_⟩ <;> simp [hR, hproj, isRejection, hsess]
    | ok pb =>
      have hprojTrans : ∀ e2, projR ≠ .transportError e2 := by
        intro e2 he2
        rw [he2] at hP
        exact Except.noConfusion hP
      by_cases hE : hasField pb "error" = true
      · have hproj : createBodyOk projR = false := by
          rw [Bool.eq_false_iff]
          intro hcontra
          obtain ⟨b, hb, hbe⟩ := (createBodyOk_true_iff projR).1 hcontra
          rw [hP] at hb
          injection hb with hb2
          rw [← hb2] at hbe
          rw [hE] at hbe
          exact Bool.noConfusion hbe
        have hR : createArgoResources ⟨url, sess, projR, appR⟩ =
            .error "Failed to create project in Argo CD" := by
          simp [createArgoResources, hT, hP, hE]
        refine ⟨?_, ?_, ?_, ?_, ?_, ?_⟩ <;> simp [hR, hproj, isRejection, hsess, hprojTrans]
      · have hE2 : hasField pb "error" = false := by
          simpa using hE
        have hproj : createBodyOk projR = true :=
          (createBodyOk_true_iff projR).2 ⟨pb, hP, hE2⟩
        cases hA : createArgoProject appR with
        | error e3 =>
          have happR : createBodyOk appR = false := by
            rw [Bool.eq_false_iff]
            intro hcontra
            obtain ⟨b, hb, _⟩ := (createBodyOk_true_iff appR).1 hcontra
            rw [hA] at hb
            exact Except.noConfusion hb
          have hR : createArgoResources ⟨url, sess, projR, appR⟩ = .error e3 := by
            simp [createArgoResources, hT, hP, hE2, createApplication_eq_createProject, hA]
          refine ⟨?_, ?_, ?_, ?_, ?_, ?_⟩ <;>
            simp [hR, happR, isRejection, hsess, hprojTrans]
        | ok ab =>
          have happTrans : ∀ e3, appR ≠ .transportError e3 := by
            intro e3 he3
            rw [he3] at hA
            simp [createArgoProject] at hA
          by_cases hEA : hasField ab "error" = true
          · have happR : createBodyOk appR = false := by
              rw [Bool.eq_false_iff]
              intro hcontra
              obtain ⟨b, hb, hbe⟩ := (createBodyOk_true_iff appR).1 hcontra
              rw [hA] at hb
              injection hb with hb2
              rw [← hb2] at hbe
              rw [hEA] at hbe
              exact Bool.noConfusion hbe
            have hR : createArgoResources ⟨url, sess, projR, appR⟩ =
                .error "Failed to create application in Argo CD" := by
              simp [createArgoResources, hT, hP, hE2, createApplication_eq_createProject,
                hA, hEA]
            refine ⟨?_, ?_, ?_, ?_, ?_, ?_⟩ <;>
              simp [hR, happR, isRejection, hsess, hprojTrans, happTrans]
          · have hEA2 : hasField ab "error" = false := by
              simpa using hEA
            have happR : createBodyOk appR = true :=
              (createBodyOk_true_iff appR).2 ⟨ab, hA, hEA2⟩
            have hR : createArgoResources ⟨url, sess, projR, appR⟩ = .ok true := by
              simp [createArgoResources, hT, hP, hE2, createApplication_eq_createProject,
                hA, hEA2]
            refine ⟨by simp [hR, htok, hproj, happR], ?_, ?_, ?_, ?_, ?_⟩
            · intro pb2 h1 h2
              injection h1 with h1b
              rw [← h1b] at h2
              rw [hE2] at h2
              exact Bool.noConfusion h2
            · intro ab2 h1 h2
              rw [createApplication_eq_createProject, hA] at h1
              injection h1 with h1b
              rw [← h1b] at h2
              rw [hEA2] at h2
              exact Bool.noConfusion h2
            · intro e2 he2
              exact absurd he2 (hsess e2)
            · intro e2 he2
              exact absurd he2 (hprojTrans e2)
            · intro e2 he2
              exact absurd he2 (happTrans e2)

/-- Witness for claim C4, at the concrete worlds of the create-resources
tests: full success resolves to true, and a project-creation body with an
error field makes the composite reject. -/
theorem createArgoResources_spec_witness :
    createArgoResources
      ⟨"https://argoInstance1.com",
       .ok ⟨200, some (.obj [("token", .str "testToken")])⟩,
       .ok ⟨200, some (.obj [("argocdCreateApplicationResp", .null)])⟩,
       .ok ⟨200, some (.obj [("argocdCreateApplicationResp", .null)])⟩⟩ = .ok true ∧
    isRejection (createArgoResources
      ⟨"https://argoInstance1.com",
       .ok ⟨200, some (.obj [("token", .str "testToken")])⟩,
       .ok ⟨200, some (.obj [("error", .str "Failure to create project")])⟩,
       .ok ⟨200, some (.obj [("argocdCreateApplicationResp", .null)])⟩⟩) = true := by
  constructor
  · exact (createArgoResources_spec _).1.mpr (by decide)
  · exact (createArgoResources_spec _).2.1
      (.obj [("error", .str "Failure to create project")]) rfl (by decide)

/-- A query failure of either kind the locator tolerates — the fetch
throwing a transport error, or a response with a non-2xx status — makes
the per-instance locate step a queryFailed outcome (given the token was
granted). -/
theorem locate_queryFailed_of_query_failure (q : AppQuery) (inst : ArgoInstance)
    (w : LocWorld) (t : String)
    (ht : getArgoToken inst.url w.session = .ok t)
    (hfail : (∃ e, w.query = .transportError e) ∨
      (∃ resp, w.query = .ok resp ∧ is2xx resp.status = false)) :
    ∃ m, locateOnInstance q inst w = .queryFailed m := by
  rcases hfail with ⟨e, he⟩ | ⟨resp, hw, hstat⟩
  · exact ⟨e, by simp [locateOnInstance, ht, getArgoAppData, he]⟩
  · exact ⟨"Request failed with status " ++ toString resp.status,
      by simp [locateOnInstance, ht, getArgoAppData, hw, hstat]⟩

/-- Claim C8: during app location, an instance whose application query
fails with a transport error or a non-2xx status is treated as not
hosting the app: with a single configured instance such a failure means
every instance failed and findArgoApp rejects, while with a second
instance that does locate the app the failing instance is merely
excluded from the result. -/
theorem findArgoApp_failure_handling :
    (∀ (q : AppQuery) (inst : ArgoInstance) (w : LocWorld) (t : String),
      queryValid q = true →
      getArgoToken inst.url w.session = .ok t →
      ((∃ e, w.query = .transportError e) ∨
        (∃ resp, w.query = .ok resp ∧ is2xx resp.status = false)) →
      isRejection (findArgoApp q [(inst, w)]) = true) ∧
    (∀ (q : AppQuery) (i1 : ArgoInstance) (w1 : LocWorld) (t : String)
       (i2 : ArgoInstance) (w2 : LocWorld) (apps : List String),
      queryValid q = true →
      getArgoToken i1.url w1.session = .ok t →
      ((∃ e, w1.query = .transportError e) ∨
        (∃ resp, w1.query = .ok resp ∧ is2xx resp.status = false)) →
      locateOnInstance q i2 w2 = .located apps → apps ≠ [] →
      findArgoApp q [(i1, w1), (i2, w2)] = .ok [⟨i2.name, i2.url, apps⟩]) := by
  constructor
  · intro q inst w t hq ht hfail
    obtain ⟨m, hloc⟩ := locate_queryFailed_of_query_failure q inst w t ht hfail
    simp [findArgoApp, hq, hloc, firstAuthFailure, allQueriesFailed, isRejection]
  · intro q i1 w1 t i2 w2 apps hq ht hfail hloc2 hne
    obtain ⟨m, hloc1⟩ := locate_queryFailed_of_query_failure q i1 w1 t ht hfail
    cases apps with
    | nil => exact absurd rfl hne
    | cons a rest =>
      simp [findArgoApp, hq, hloc1, hloc2, firstAuthFailure, allQueriesFailed,
        collectFound, List.isEmpty]

/-- Witness for claim C8, at the concrete inputs of the locator tests: a
single instance whose application query answers 500 makes findArgoApp
reject, a single instance whose application query throws a transport
error makes it reject too, and next to a second instance hosting the
app a failing instance is excluded while the second is returned. -/
theorem findArgoApp_failure_handling_witness :
    isRejection (findArgoApp ⟨some "testApp", none⟩
      [(⟨"argoInstance1", "https://argoInstance1.com"⟩,
        ⟨.ok ⟨200, some (.obj [("token", .str "testToken")])⟩, .ok ⟨500, none⟩⟩)]) = true ∧
    isRejection (findArgoApp ⟨some "testApp", none⟩
      [(⟨"argoInstance1", "https://argoInstance1.com"⟩,
        ⟨.ok ⟨200, some (.obj [("token", .str "testToken")])⟩,
         .transportError "network failure"⟩)]) = true ∧
    findArgoApp ⟨some "testApp-nonprod", none⟩
      [(⟨"argoInstance1", "https://argoInstance1.com"⟩,
        ⟨.ok ⟨200, some (.obj [("token", .str "testToken")])⟩,
         .transportError "network failure"⟩),
       (⟨"argoInstance2", "https://argoInstance2.com"⟩,
        ⟨.ok ⟨200, some (.obj [("token", .str "testToken")])⟩,
         .ok ⟨200, some (.obj [("metadata", .obj
           [("name", .str "testApp-nonprod"), ("namespace", .str "argocd")])])⟩⟩)] =
      .ok [⟨"argoInstance2", "https://argoInstance2.com", ["testApp-nonprod"]⟩] := by
  refine ⟨?_, ?_, ?_⟩
  · exact findArgoApp_failure_handling.1 ⟨some "testApp", none⟩
      ⟨"argoInstance1", "https://argoInstance1.com"⟩
      ⟨.ok ⟨200, some (.obj [("token", .str "testToken")])⟩, .ok ⟨500, none⟩⟩
      "testToken" (by decide) rfl (Or.inr ⟨⟨500, none⟩, rfl, by decide⟩)
  · exact findArgoApp_failure_handling.1 ⟨some "testApp", none⟩
      ⟨"argoInstance1", "https://argoInstance1.com"⟩
      ⟨.ok ⟨200, some (.obj [("token", .str "testToken")])⟩,
       .transportError "network failure"⟩
      "testToken" (by decide) rfl (Or.inl ⟨"network failure", rfl⟩)
  · exact findArgoApp_failure_handling.2 ⟨some "testApp-nonprod", none⟩
      ⟨"argoInstance1", "https://argoInstance1.com"⟩
      ⟨.ok ⟨200, some (.obj [("token", .str "testToken")])⟩,
       .transportError "network failure"⟩
      "testToken"
      ⟨"argoInstance2", "https://argoInstance2.com"⟩
      ⟨.ok ⟨200, some (.obj [("token", .str "testToken")])⟩,
       .ok ⟨200, some (.obj [("metadata", .obj
         [("name", .str "testApp-nonprod"), ("namespace", .str "argocd")])])⟩⟩
      ["testApp-nonprod"] (by decide) rfl (Or.inl ⟨"network failure", rfl⟩) rfl (by decide)

/-- Claim C3: end to end, with the one configured instance argoInstance1,
a selector query testApp locating the app testAppName, and tokens
granted, resyncAppOnAllArgos resolves to the nested Success result when
the sync call answers 2xx, and still resolves, to the nested Failure
result, when the sync call answers 403 with a permission-denied body: the
per-app Failure is data, not a thrown error. -/
theorem resyncAppOnAllArgos_end_to_end :
    resyncAppOnAllArgos ⟨none, some "testApp"⟩
      [(⟨"argoInstance1", "https://argoInstance1.com"⟩,
        ⟨.ok ⟨200, some (.obj [("token", .str "testToken")])⟩,
         .ok ⟨200, some (.obj [("items", .arr [.obj [("metadata", .obj
           [("name", .str "testAppName"), ("namespace", .str "testNamespace")])]])])⟩,
         .ok ⟨200, some (.obj [("token", .str "testToken")])⟩,
         fun _ => ⟨200, none⟩⟩)] =
      .ok [[⟨"Success", "Re-synced testAppName on argoInstance1"⟩]] ∧
    resyncAppOnAllArgos ⟨none, some "testApp"⟩
      [(⟨"argoInstance1", "https://argoInstance1.com"⟩,
        ⟨.ok ⟨200, some (.obj [("token", .str "testToken")])⟩,
         .ok ⟨200, some (.obj [("items", .arr [.obj [("metadata", .obj
           [("name", .str "testAppName"), ("namespace", .str "testNamespace")])]])])⟩,
         .ok ⟨200, some (.obj [("token", .str "testToken")])⟩,
         fun _ => ⟨403, some (.obj
           [("error", .str "permission denied: applications, sync, backstagetestmanual-nonprod/backstagetestmanual-nonprod, sub: testuser18471, iat: 2022-04-13T12:28:34Z"),
            ("message", .str "permission denied: applications, sync, backstagetestmanual-nonprod/backstagetestmanual-nonprod, sub: testuser18471, iat: 2022-04-13T12:28:34Z")])⟩⟩)] =
      .ok [[⟨"Failure", "Failed to resync testAppName on argoInstance1"⟩]] :=
  ⟨rfl, rfl⟩

/-- Counterexample for claim C6 as stated: on a 401 during token
acquisition the aggregate operation does reject, but the message of the
rejection is the one the test suite pins, which is not the message
template the claim quotes. -/
theorem resync_unauthorized_message_counterexample :
    resyncAppOnAllArgos ⟨none, some "testApp"⟩
      [(⟨"argoInstance1", "https://argoInstance1.com"⟩,
        ⟨.ok ⟨401, some (.obj [("message", .str "Unauthorized")])⟩,
         .ok ⟨200, some (.obj [("items", .arr [])])⟩,
         .ok ⟨200, some (.obj [("token", .str "testToken")])⟩,
         fun _ => ⟨200, none⟩⟩)] =
      .error "Getting unauthorized for Argo CD instance https://argoInstance1.com" ∧
    "Getting unauthorized for Argo CD instance https://argoInstance1.com" ≠
      "Unauthorized for instance https://argoInstance1.com" :=
  ⟨rfl, by decide⟩

/-- Claim C6 as amended: when an instance answers 401 during token
acquisition, the aggregate operation rejects with the error message
`Getting unauthorized for Argo CD instance {url}` carrying that
instance's URL; the locator-level authentication failure aborts the
whole aggregate operation rather than silently skipping the instance. -/
theorem resync_unauthorized_aborts (q : AppQuery) (inst : ArgoInstance) (w : ResyncWorld)
    (resp : HttpResponse) (hq : queryValid q = true)
    (hs : w.locSession = .ok resp) (h401 : resp.status = 401) :
    resyncAppOnAllArgos q [(inst, w)] =
      .error ("Getting unauthorized for Argo CD instance " ++ inst.url) := by
  have ht : getArgoToken inst.url w.locSession =
      .error ("Getting unauthorized for Argo CD instance " ++ inst.url) := by
    rw [hs]
    simp [getArgoToken, is2xx, h401]
  simp [resyncAppOnAllArgos, findArgoApp, hq, ResyncWorld.toLoc, locateOnInstance, ht,
    firstAuthFailure]

/-- Witness for the amended claim C6, at the concrete input of the
bad-token test: the one configured instance rejects the session call with
401 and the aggregate operation rejects with the pinned message. -/
theorem resync_unauthorized_aborts_witness :
    resyncAppOnAllArgos ⟨none, some "testApp"⟩
      [(⟨"argoInstance1", "https://argoInstance1.com"⟩,
        ⟨.ok ⟨401, some (.obj [("message", .str "Unauthorized")])⟩,
         .ok ⟨200, some (.obj [("items", .arr [])])⟩,
         .ok ⟨200, some (.obj [("token", .str "testToken")])⟩,
         fun _ => ⟨403, none⟩⟩)] =
      .error "Getting unauthorized for Argo CD instance https://argoInstance1.com" := by
  exact resync_unauthorized_aborts ⟨none, some "testApp"⟩
    ⟨"argoInstance1", "https://argoInstance1.com"⟩
    ⟨.ok ⟨401, some (.obj [("message", .str "Unauthorized")])⟩,
     .ok ⟨200, some (.obj [("items", .arr [])])⟩,
     .ok ⟨200, some (.obj [("token", .str "testToken")])⟩,
     fun _ => ⟨403, none⟩⟩
    ⟨401, some (.obj [("message", .str "Unauthorized")])⟩
    (by decide) rfl rfl
